import Mathlib

/-!
Shallow embedding of the Last-Position Lookup Engine of the
gps-last-position-api repository: the Redis-backed repositories
(GPSLastPositionRepository, MobileLastPositionRepository), the business
services (GPSLastPositionService, MobileLastPositionService) and the
boundary validation middleware, translated from the JavaScript source.

Modelling conventions:
* A JS value read from a hash field or a route parameter is `Option String`
  (`none` = absent/undefined/null); JS truthiness of such a value is
  captured by `jsTruthy` (the empty string is falsy).
* `JSON.parse` is an external function to the engine; repositories are
  parameterised by a `JsonParser` that either yields a parsed position
  object (`some`), a falsy parse result such as `null` (`none`), or throws
  (`Except.error`).  The engine never computes with coordinates, so a
  numeric value is represented by the text it was parsed from (`JsNum`).
* Redis is a key/value association list; the four physical encodings of a
  stored record plus the unsupported-type case form `RedisValue`.
* Thrown JS exceptions are `Except String`; `catch` blocks become `match`.
-/

namespace GpsApi

/-- Model of String.prototype.trim, over the character list (the exotic
Unicode whitespace cases are out of scope; every identifier in play is
ASCII). -/
def jsTrim (s : String) : String :=
  ⟨((s.data.dropWhile Char.isWhitespace).reverse.dropWhile Char.isWhitespace).reverse⟩

/-- Character-list test that `p` begins `s` (String.prototype.startsWith). -/
def listStarts : List Char → List Char → Bool
  | [], _ => true
  | _ :: _, [] => false
  | a :: as, b :: bs => a == b && listStarts as bs

/-- Truthiness of a possibly-absent JS string value: undefined, null and
the empty string are falsy. -/
def jsTruthy : Option String → Bool
  | some s => !(s == "")
  | none => false

/-- The JS `a || b` operator on possibly-absent string values. -/
def jsOr (a b : Option String) : Option String :=
  if jsTruthy a then a else b

/-- A JS number inside a position record.  The engine only moves
coordinates around and never computes with them, so the number is
represented by the source text handed to `parseFloat`. -/
structure JsNum where
  text : String
deriving DecidableEq, Repr

/-- Model of `parseFloat` (see `JsNum`). -/
def parseFloat (s : String) : JsNum := ⟨s⟩

/-- The canonical in-memory position object.  Every field the engine ever
reads or writes is optional (`none` = the JS object lacks the key or holds
null/undefined).  `metadata` is opaque to the engine and represented by
the text it was parsed from. -/
structure Position where
  deviceId : Option String := none
  userId : Option String := none
  lat : Option JsNum := none
  lng : Option JsNum := none
  timestamp : Option String := none
  receivedAt : Option String := none
  updatedAt : Option String := none
  metadata : Option String := none
  name : Option String := none
  retrievedAt : Option String := none
deriving DecidableEq, Repr

/-- Model of `JSON.parse` as used by the repositories: parsing a serialized
position blob yields a position object (`some`), a falsy JS value such as
null (`none`), or throws (`error`); parsing a metadata blob yields an
opaque value or throws. -/
structure JsonParser where
  parsePos : String → Except String (Option Position)
  parseMeta : String → Except String String

/-- A value stored under one Redis key: the four physical encodings the
decoder supports, plus any unsupported type (identified by its Redis type
name, e.g. "set" or "stream"). -/
inductive RedisValue where
  | str (s : String)
  | hash (fields : List (String × String))
  | list (elems : List String)
  | zset (elems : List (String × Int))
  | other (typeName : String)
deriving DecidableEq, Repr

/-- The Redis keyspace, in scan order (the order `KEYS pattern` reports). -/
abbrev Store := List (String × RedisValue)

/-- Value stored under a key, if the key exists. -/
def storeGet (st : Store) (k : String) : Option RedisValue :=
  (st.find? (fun kv => kv.1 == k)).map Prod.snd

/-- Field access on a `HGETALL` result (`hashData.f`). -/
def hget (fields : List (String × String)) (f : String) : Option String :=
  (fields.find? (fun kv => kv.1 == f)).map Prod.snd

/-- The `hashData.f ? parseFloat(hashData.f) : null` pattern of the hash
decoder. -/
def hnum (fields : List (String × String)) (f : String) : Option JsNum :=
  match hget fields f with
  | some s => if s == "" then none else some (parseFloat s)
  | none => none

/-- The `hashData.metadata ? JSON.parse(hashData.metadata) : null` pattern:
a present, truthy metadata field is parsed and a malformed one throws. -/
def hmeta (J : JsonParser) (fields : List (String × String)) :
    Except String (Option String) :=
  match hget fields "metadata" with
  | some m => if m == "" then .ok none else (J.parseMeta m).map some
  | none => .ok none

/-- Member returned by `ZREVRANGE key 0 0`: highest score first, ties
broken by reverse lexicographic member order. -/
def zrevTop : List (String × Int) → Option String
  | [] => none
  | e :: es =>
    some (es.foldl
      (fun best cur =>
        if best.2 < cur.2 || (best.2 == cur.2 && best.1 < cur.1) then cur
        else best)
      e).1

/-! GPSLastPositionRepository (source: repositories/GPSLastPositionRepository.js).
The repository is instantiated with the configured key namespace text
`config.redis.keyPrefix`, written `pre` below; its read methods are
parameterised by the parser `J`, the store `st` and the timestamp `now`
that `new Date().toISOString()` produces at read time. -/

/-- GPSLastPositionRepository.getDataByType: dispatch on the physical type
of `key` and decode; unsupported types (and a concurrently vanished key,
whose type is reported as "none") yield null with a warning; a malformed
blob throws. -/
def gpsGetDataByType (J : JsonParser) (st : Store) (key deviceId : String) :
    Except String (Option Position) :=
  match storeGet st key with
  | some (.str s) =>
    if s == "" then .ok none else J.parsePos s
  | some (.hash fields) =>
    if fields.isEmpty then .ok none
    else
      (hmeta J fields).map (fun md => some
        { deviceId := jsOr (hget fields "deviceId") (some deviceId)
          lat := hnum fields "lat"
          lng := hnum fields "lng"
          timestamp := jsOr (hget fields "timestamp") none
          receivedAt := jsOr (hget fields "receivedAt") none
          updatedAt := jsOr (hget fields "updatedAt") none
          metadata := md
          name := jsOr (hget fields "name") (jsOr (hget fields "deviceName") none) })
  | some (.list elems) =>
    match elems.getLast? with
    | some s => if s == "" then .ok none else J.parsePos s
    | none => .ok none
  | some (.zset elems) =>
    match zrevTop elems with
    | some s => J.parsePos s
    | none => .ok none
  | some (.other _) => .ok none
  | none => .ok none

/-- GPSLastPositionRepository.getLastPosition: existence check, decode by
type, then stamp `retrievedAt`; null when the key is absent or the decoded
payload is falsy.  The payload is spread unchanged: no identifier fixup. -/
def gpsGetLastPosition (J : JsonParser) (pre now : String) (st : Store)
    (deviceId : String) : Except String (Option Position) :=
  let key := pre ++ deviceId
  if (storeGet st key).isNone then .ok none
  else
    match gpsGetDataByType J st key deviceId with
    | .error e => .error e
    | .ok none => .ok none
    | .ok (some p) => .ok (some { p with retrievedAt := some now })

/-- Per-id lookup as the batch loop observes it: a decoded record, or
nothing when the id is absent, decodes to null, or throws (the catch block
logs and continues). -/
def lookupOpt (J : JsonParser) (pre now : String) (st : Store)
    (deviceId : String) : Option Position :=
  match gpsGetLastPosition J pre now st deviceId with
  | .ok (some p) => some p
  | .ok none => none
  | .error _ => none

/-- One iteration of the repositories' accumulate loops: push the record
when the per-id lookup found one, otherwise keep the accumulator. -/
def pushFound (f : String → Option Position) (positions : List Position)
    (id : String) : List Position :=
  match f id with
  | some p => positions ++ [p]
  | none => positions

/-- GPSLastPositionRepository.getMultipleLastPositions: resolve each id in
order, pushing successful lookups and swallowing per-id failures. -/
def gpsGetMultipleLastPositions (J : JsonParser) (pre now : String)
    (st : Store) (deviceIds : List String) : List Position :=
  deviceIds.foldl (pushFound (lookupOpt J pre now st)) []

/-- Keys reported by `KEYS pre*`, in scan order. -/
def storeKeys (st : Store) (pre : String) : List String :=
  (st.map Prod.fst).filter (fun k => listStarts pre.data k.data)

/-- The `key.replace(pre, '')` id recovery applied to a scanned key. -/
def stripPre (pre key : String) : String :=
  if listStarts pre.data key.data then ⟨key.data.drop pre.length⟩ else key

/-- GPSLastPositionRepository.getAllLastPositions: scan the namespace,
derive each id from its key, and resolve it through getLastPosition,
swallowing per-key failures. -/
def gpsGetAllLastPositionsRepo (J : JsonParser) (pre now : String)
    (st : Store) : List Position :=
  (storeKeys st pre).foldl
    (fun positions key =>
      match lookupOpt J pre now st (stripPre pre key) with
      | some p => positions ++ [p]
      | none => positions)
    []

/-! MobileLastPositionRepository (source:
repositories/MobileLastPositionRepository.js).  Same structure over the
hard-coded namespace text "mobile:last:", with two differences: the hash
decoder reads the identifier as `userId || deviceId || userId-from-key`,
and getLastPosition force-fills `userId` on the returned record. -/

/-- The mobile namespace key for a user id. -/
def mobileKey (userId : String) : String := "mobile:last:" ++ userId

/-- MobileLastPositionRepository.getDataByType. -/
def mobileGetDataByType (J : JsonParser) (st : Store) (key userId : String) :
    Except String (Option Position) :=
  match storeGet st key with
  | some (.str s) =>
    if s == "" then .ok none else J.parsePos s
  | some (.hash fields) =>
    if fields.isEmpty then .ok none
    else
      (hmeta J fields).map (fun md => some
        { userId := jsOr (hget fields "userId")
            (jsOr (hget fields "deviceId") (some userId))
          lat := hnum fields "lat"
          lng := hnum fields "lng"
          timestamp := jsOr (hget fields "timestamp") none
          receivedAt := jsOr (hget fields "receivedAt") none
          updatedAt := jsOr (hget fields "updatedAt") none
          metadata := md
          name := jsOr (hget fields "name") (jsOr (hget fields "deviceName") none) })
  | some (.list elems) =>
    match elems.getLast? with
    | some s => if s == "" then .ok none else J.parsePos s
    | none => .ok none
  | some (.zset elems) =>
    match zrevTop elems with
    | some s => J.parsePos s
    | none => .ok none
  | some (.other _) => .ok none
  | none => .ok none

/-- MobileLastPositionRepository.getLastPosition: like the GPS variant,
but the returned record is `{...position, userId: position.userId ||
userId, retrievedAt}` — a missing or empty payload identifier is replaced
by the requested id. -/
def mobileGetLastPosition (J : JsonParser) (now : String) (st : Store)
    (userId : String) : Except String (Option Position) :=
  let key := mobileKey userId
  if (storeGet st key).isNone then .ok none
  else
    match mobileGetDataByType J st key userId with
    | .error e => .error e
    | .ok none => .ok none
    | .ok (some p) =>
      .ok (some { p with userId := jsOr p.userId (some userId)
                         retrievedAt := some now })

/-- Per-id mobile lookup as the batch loop observes it. -/
def mobileLookupOpt (J : JsonParser) (now : String) (st : Store)
    (userId : String) : Option Position :=
  match mobileGetLastPosition J now st userId with
  | .ok (some p) => some p
  | .ok none => none
  | .error _ => none

/-- MobileLastPositionRepository.getAllLastPositions. -/
def mobileGetAllLastPositionsRepo (J : JsonParser) (now : String)
    (st : Store) : List Position :=
  (storeKeys st "mobile:last:").foldl
    (fun positions key =>
      match mobileLookupOpt J now st (stripPre "mobile:last:" key) with
      | some p => positions ++ [p]
      | none => positions)
    []

/-! GPSLastPositionService (source: services/GPSLastPositionService.js)
and the mobile-view pieces of MobileLastPositionService.  Requests arrive
with already-parsed fields; a missing/null route parameter is `none`. -/

/-- The response-shaping argument of the service operations
('full' | 'gps' | 'mobile'; any other string falls into the default
branch, which behaves like 'full'). -/
inductive Fmt where
  | full
  | gps
  | mobile
deriving DecidableEq, Repr

/-- A projected view of a position: the full record unchanged, the GPS
shape {id, lat, lng}, or the mobile shape {id, lat, lng, name}. -/
inductive Formatted where
  | full (p : Position)
  | slim (id : Option String) (lat lng : Option JsNum)
  | named (id : Option String) (lat lng : Option JsNum) (name : Option String)
deriving DecidableEq, Repr

/-- The `id` field of a projected view, if the view has one (the full view
returns the record unchanged, whose identifier still lives under its
original `deviceId`/`userId` key). -/
def Formatted.idField : Formatted → Option (Option String)
  | .full _ => none
  | .slim i _ _ => some i
  | .named i _ _ _ => some i

/-- The `name` field of a projected view, if the view has one. -/
def Formatted.nameField : Formatted → Option (Option String)
  | .named _ _ _ n => some n
  | _ => none

/-- GPSLastPositionService._formatPositionData: project a record into the
requested view; `id` is `position.deviceId` and the mobile `name` is
`position.name || position.deviceId`. -/
def formatPositionData (position : Position) : Fmt → Formatted
  | .gps => .slim position.deviceId position.lat position.lng
  | .mobile => .named position.deviceId position.lat position.lng
      (jsOr position.name position.deviceId)
  | .full => .full position

/-- MobileLastPositionService._formatPositionDataForMobile: the same shape
read off the `userId` field. -/
def formatPositionDataForMobile (position : Position) : Formatted :=
  .named position.userId position.lat position.lng
    (jsOr position.name position.userId)

/-- The service-level id check (missing, non-string, or blank after
trimming), restricted to string inputs. -/
def svcIdInvalid (s : String) : Bool := s == "" || jsTrim s == ""

/-- Outcome of GPSLastPositionService.getDeviceLastPosition, one
constructor per error code of the source plus success. -/
inductive LookupResult where
  | invalidDeviceId
  | positionNotFound (deviceId : String)
  | ok (data : Formatted) (deviceId : String)
  | internalError (details : String)
deriving DecidableEq, Repr

/-- GPSLastPositionService.getDeviceLastPosition: reject a missing or
blank id, look the trimmed id up, map null to POSITION_NOT_FOUND, project
the record, and turn a thrown error into INTERNAL_ERROR. -/
def getDeviceLastPosition (J : JsonParser) (pre now : String) (st : Store)
    (deviceId : Option String) (format : Fmt) : LookupResult :=
  match deviceId with
  | none => .invalidDeviceId
  | some s =>
    if svcIdInvalid s then .invalidDeviceId
    else
      let clean := jsTrim s
      match gpsGetLastPosition J pre now st clean with
      | .error e => .internalError e
      | .ok none => .positionNotFound clean
      | .ok (some p) => .ok (formatPositionData p format) clean

/-- The summary object of a successful batch lookup. -/
structure MultiSummary where
  requested : Nat
  found : Nat
  notFound : Nat
  notFoundDeviceIds : List String
deriving DecidableEq, Repr

/-- Outcome of GPSLastPositionService.getMultipleDevicesLastPositions, one
constructor per error code of the source plus success. -/
inductive MultiResult where
  | invalidBatch
  | invalidEntries (invalidIds : List String)
  | tooMany (requested maximum : Nat)
  | ok (data : List Formatted) (summary : MultiSummary)
  | internalError (details : String)
deriving DecidableEq, Repr

/-- GPSLastPositionService.getMultipleDevicesLastPositions: reject an
empty batch, then any batch with invalid entries (all-or-nothing), then a
batch over the 100-device ceiling; otherwise resolve the cleaned ids,
project each found record, and report `{requested, found, notFound,
notFoundDeviceIds}` where notFound collects the requested ids absent from
the found records' `deviceId` fields. -/
def getMultipleDevicesLastPositions (J : JsonParser) (pre now : String)
    (st : Store) (deviceIds : List String) (format : Fmt) : MultiResult :=
  if deviceIds.isEmpty then .invalidBatch
  else
    let invalidIds := deviceIds.filter svcIdInvalid
    let cleanIds := (deviceIds.filter (fun s => !svcIdInvalid s)).map jsTrim
    if !invalidIds.isEmpty then .invalidEntries invalidIds
    else if cleanIds.length > 100 then .tooMany cleanIds.length 100
    else
      let positions := gpsGetMultipleLastPositions J pre now st cleanIds
      let formatted := positions.map (fun p => formatPositionData p format)
      let foundDeviceIds := positions.map Position.deviceId
      let notFoundIds := cleanIds.filter
        (fun id => !(foundDeviceIds.contains (some id)))
      .ok formatted
        { requested := cleanIds.length
          found := formatted.length
          notFound := notFoundIds.length
          notFoundDeviceIds := notFoundIds }

/-- The summary object of a full listing. -/
structure AllSummary where
  total : Nat
  returned : Nat
  offset : Int
  limit : Option Int
  format : String
deriving DecidableEq, Repr

/-- A full-listing response (the source's catch block cannot fire in the
model: per-key failures are already absorbed inside the repository). -/
structure AllResponse where
  data : List Formatted
  summary : AllSummary
deriving DecidableEq, Repr

/-- The `if (limit && limit > 0)` pagination of getAllLastPositions: a
truthy positive limit slices `[max(0, offset), max(0, offset) + limit)`
in memory; otherwise the whole list is returned. -/
def paginate (formatted : List Formatted) (limit : Option Int)
    (offset : Int) : List Formatted :=
  match limit with
  | some lim =>
    if 0 < lim then (formatted.drop offset.toNat).take lim.toNat
    else formatted
  | none => formatted

/-- GPSLastPositionService.getAllLastPositions: scan everything, project
every record to the GPS view, then paginate in memory. -/
def getAllLastPositions (J : JsonParser) (pre now : String) (st : Store)
    (limit : Option Int) (offset : Int) : AllResponse :=
  let formatted := (gpsGetAllLastPositionsRepo J pre now st).map
    (fun p => formatPositionData p .gps)
  let positions := paginate formatted limit offset
  { data := positions
    summary :=
      { total := formatted.length
        returned := positions.length
        offset := offset
        limit := limit
        format := "gps" } }

/-- MobileLastPositionService.getAllLastPositions: the mobile twin,
projecting to the mobile view. -/
def mobileGetAllLastPositions (J : JsonParser) (now : String) (st : Store)
    (limit : Option Int) (offset : Int) : AllResponse :=
  let formatted := (mobileGetAllLastPositionsRepo J now st).map
    formatPositionDataForMobile
  let positions := paginate formatted limit offset
  { data := positions
    summary :=
      { total := formatted.length
        returned := positions.length
        offset := offset
        limit := limit
        format := "mobile" } }

/-! Boundary-layer validation (source: middleware/validationMiddleware.js).
A middleware either rejects with an error code or passes (`none`). -/

/-- Error codes of validateDeviceIdMiddleware. -/
inductive MwCheck where
  | missingDeviceId
  | invalidDeviceId
  | deviceIdTooLong (providedLength maxLength : Nat)
  | invalidDeviceIdCharacters
deriving DecidableEq, Repr

/-- One character of the `/^[a-zA-Z0-9._-]+$/` class. -/
def validChar (c : Char) : Bool :=
  c.isAlphanum || c = '.' || c = '_' || c = '-'

/-- The `/^[a-zA-Z0-9._-]+$/` test. -/
def validPattern (s : String) : Bool :=
  !(s == "") && s.data.all validChar

/-- validateDeviceIdMiddleware: missing/blank, over-length (>100), and
character-set checks, in source order, restricted to string inputs. -/
def validateDeviceIdMiddleware (deviceId : Option String) : Option MwCheck :=
  match deviceId with
  | none => some .missingDeviceId
  | some s =>
    if s == "" then some .missingDeviceId
    else if jsTrim s == "" then some .invalidDeviceId
    else if s.length > 100 then some (.deviceIdTooLong s.length 100)
    else if !validPattern s then some .invalidDeviceIdCharacters
    else none

/-! Concrete fixtures used by counterexamples and witnesses. -/

/-- A table-driven instance of the external JSON parser: listed blobs parse
to the listed outcome, every other blob parses to a falsy value, and
metadata parses to itself. -/
def tableParser (tbl : List (String × Except String (Option Position))) :
    JsonParser :=
  { parsePos := fun s => ((tbl.find? (fun kv => kv.1 == s)).map Prod.snd).getD (.ok none)
    parseMeta := fun s => .ok s }

/-- Parser fixture: the blobs used by concrete stores below. -/
def testParser : JsonParser := tableParser
  [("blobMatch", .ok (some { deviceId := some "dev-1", userId := some "u-1" })),
   ("blobOther", .ok (some { deviceId := some "other-device", userId := some "other-user" })),
   ("blobNoId", .ok (some { lat := some (parseFloat "1.0") })),
   ("blobBad", .error "Unexpected token")]

/-- Store fixture: a device record whose serialized payload carries a
different identifier than the key it is stored under. -/
def mismatchStore : Store := [("gps:last:dev-1", .str "blobOther")]

/-- Store fixture: a device record whose serialized payload carries the
identifier it is stored under. -/
def matchStore : Store := [("gps:last:dev-1", .str "blobMatch")]

/-- Record fixture used by the projection claims. -/
def recC6 : Position :=
  { deviceId := some "dev-9", lat := some (parseFloat "1.25"), name := some "Truck 9" }

/-- Record fixture with a set-but-empty display name. -/
def recC7 : Position := { deviceId := some "dev-7", name := some "" }

/-- C6: the claim asserts every projected view carries an `id` field equal
to the record's entityId.  The full view returns the canonical record
unchanged, which has no `id` field at all (the identifier stays under
`deviceId`), refuting the claim at view 'full'. -/
theorem C6_full_view_has_no_id_field :
    Formatted.idField (formatPositionData recC6 .full) = none
    ∧ recC6.deviceId = some "dev-9" := by
  exact ⟨rfl, rfl⟩

/-- C6 (amended): the gps and mobile views expose `id` equal to the
record's `deviceId` (the mobile service's projector reads `userId`), and
the full view is the identity; the projector is a total function. -/
theorem C6_projection_id_fields (r : Position) :
    (formatPositionData r .gps).idField = some r.deviceId
    ∧ (formatPositionData r .mobile).idField = some r.deviceId
    ∧ formatPositionData r .full = .full r
    ∧ (formatPositionDataForMobile r).idField = some r.userId := by
  exact ⟨rfl, rfl, rfl, rfl⟩

/-- C7: a record whose displayName is set to the empty string (reachable
through the serialized-blob encodings, which keep `name` verbatim) is
projected with `name` equal to the identifier, not to the set displayName,
because the `position.name || position.deviceId` fallback treats the empty
string as absent. -/
theorem C7_empty_name_falls_back :
    recC7.name = some ""
    ∧ recC7.name ≠ none
    ∧ (formatPositionData recC7 .mobile).nameField = some (some "dev-7")
    ∧ (formatPositionData recC7 .mobile).nameField ≠ some recC7.name := by
  refine ⟨rfl, by decide, rfl, by decide⟩

/-- C7 (amended): the mobile projections yield `name = displayName` when
the displayName is set and non-empty, and fall back to the record's
identifier field when the displayName is unset, null, or empty. -/
theorem C7_mobile_name_rule (r : Position) :
    (jsTruthy r.name = true →
      (formatPositionData r .mobile).nameField = some r.name
      ∧ (formatPositionDataForMobile r).nameField = some r.name)
    ∧ (jsTruthy r.name = false →
      (formatPositionData r .mobile).nameField = some r.deviceId
      ∧ (formatPositionDataForMobile r).nameField = some r.userId) := by
  constructor
  · intro h
    constructor <;>
      simp [formatPositionData, formatPositionDataForMobile, Formatted.nameField, jsOr, h]
  · intro h
    constructor <;>
      simp [formatPositionData, formatPositionDataForMobile, Formatted.nameField, jsOr, h]

/-- Witness for C7_mobile_name_rule at two concrete records. -/
theorem C7_mobile_name_rule_witness :
    (formatPositionData { deviceId := some "dev-7", name := some "Truck 7" } .mobile).nameField
      = some (some "Truck 7")
    ∧ (formatPositionData { deviceId := some "dev-7" } .mobile).nameField
      = some (some "dev-7") := by
  have h1 := (C7_mobile_name_rule { deviceId := some "dev-7", name := some "Truck 7" }).1 (by decide)
  have h2 := (C7_mobile_name_rule { deviceId := some "dev-7" }).2 (by decide)
  exact ⟨h1.1, h2.1⟩

/-- C9: a key stored with a physical type outside the four supported
encodings decodes to null (not an error), and the single lookup therefore
reports POSITION_NOT_FOUND. -/
theorem C9_unsupported_type_is_not_found (J : JsonParser) (pre now : String)
    (st : Store) (id t : String) (format : Fmt)
    (hid : svcIdInvalid id = false)
    (hstore : storeGet st (pre ++ (jsTrim id)) = some (.other t)) :
    gpsGetDataByType J st (pre ++ (jsTrim id)) (jsTrim id) = .ok none
    ∧ getDeviceLastPosition J pre now st (some id) format
        = .positionNotFound (jsTrim id) := by
  have hdbt : gpsGetDataByType J st (pre ++ (jsTrim id)) (jsTrim id) = .ok none := by
    simp [gpsGetDataByType, hstore]
  have hglp : gpsGetLastPosition J pre now st (jsTrim id) = .ok none := by
    simp [gpsGetLastPosition, hstore, hdbt]
  refine ⟨hdbt, ?_⟩
  simp [getDeviceLastPosition, hid, hglp]

/-- Witness for C9_unsupported_type_is_not_found on a concrete store
holding a key of an unsupported type. -/
theorem C9_witness :
    getDeviceLastPosition testParser "gps:last:" "T0"
      [("gps:last:dev-1", .other "set")] (some "dev-1") .full
        = .positionNotFound "dev-1" := by
  have h := C9_unsupported_type_is_not_found testParser "gps:last:" "T0"
    [("gps:last:dev-1", .other "set")] "dev-1" "set" .full (by decide) (by decide)
  exact h.2

/-- C10: with no limit, the full listing returns every projected record
unchanged whatever offset was supplied; the summary's returned equals its
total and the caller's offset is echoed.  Stated for both the GPS and the
mobile service. -/
theorem C10_no_limit_ignores_offset (J : JsonParser) (pre now : String)
    (st : Store) (offset : Int) :
    (getAllLastPositions J pre now st none offset).data
        = (gpsGetAllLastPositionsRepo J pre now st).map
            (fun p => formatPositionData p .gps)
    ∧ (getAllLastPositions J pre now st none offset).summary
        = { total := ((gpsGetAllLastPositionsRepo J pre now st).map
                        (fun p => formatPositionData p .gps)).length
            returned := ((gpsGetAllLastPositionsRepo J pre now st).map
                           (fun p => formatPositionData p .gps)).length
            offset := offset
            limit := none
            format := "gps" }
    ∧ (mobileGetAllLastPositions J now st none offset).data
        = (mobileGetAllLastPositionsRepo J now st).map formatPositionDataForMobile
    ∧ (mobileGetAllLastPositions J now st none offset).summary
        = { total := ((mobileGetAllLastPositionsRepo J now st).map
                        formatPositionDataForMobile).length
            returned := ((mobileGetAllLastPositionsRepo J now st).map
                           formatPositionDataForMobile).length
            offset := offset
            limit := none
            format := "mobile" } := by
  exact ⟨rfl, rfl, rfl, rfl⟩

/-- Parser fixture for the listing claims: every blob parses to a record
whose deviceId is the blob text itself. -/
def echoParser : JsonParser :=
  { parsePos := fun s => .ok (some { deviceId := some s })
    parseMeta := fun s => .ok s }

/-- Store fixture with five decodable device records, in scan order. -/
def fiveStore : Store :=
  [("gps:last:d1", .str "b1"), ("gps:last:d2", .str "b2"),
   ("gps:last:d3", .str "b3"), ("gps:last:d4", .str "b4"),
   ("gps:last:d5", .str "b5")]

/-- C5: over a scan producing five records, the listing with limit 2 and
offset 1 returns exactly the projections of the records at 0-indexed scan
positions 1 and 2, and the summary reports total 5, returned 2, offset 1,
limit 2 — the slice is applied after projecting every scanned record. -/
theorem C5_pagination_slice (J : JsonParser) (pre now : String) (st : Store)
    (p0 p1 p2 p3 p4 : Position)
    (h : gpsGetAllLastPositionsRepo J pre now st = [p0, p1, p2, p3, p4]) :
    getAllLastPositions J pre now st (some 2) 1 =
      { data := [formatPositionData p1 .gps, formatPositionData p2 .gps]
        summary :=
          { total := 5, returned := 2, offset := 1, limit := some 2,
            format := "gps" } } := by
  simp [getAllLastPositions, paginate, h]

/-- Witness for C5_pagination_slice on a concrete five-record store. -/
theorem C5_witness :
    getAllLastPositions echoParser "gps:last:" "T0" fiveStore (some 2) 1 =
      { data := [Formatted.slim (some "b2") none none,
                 Formatted.slim (some "b3") none none]
        summary :=
          { total := 5, returned := 2, offset := 1, limit := some 2,
            format := "gps" } } := by
  exact C5_pagination_slice echoParser "gps:last:" "T0" fiveStore
    { deviceId := some "b1", retrievedAt := some "T0" }
    { deviceId := some "b2", retrievedAt := some "T0" }
    { deviceId := some "b3", retrievedAt := some "T0" }
    { deviceId := some "b4", retrievedAt := some "T0" }
    { deviceId := some "b5", retrievedAt := some "T0" }
    rfl

/-- An identifier of 101 'a' characters: over the 100-character ceiling
but well-formed otherwise. -/
def longId : String := ⟨List.replicate 101 'a'⟩

/-- Store fixture holding a record under the over-long identifier. -/
def longStore : Store := [("gps:last:" ++ longId, .str "blobMatch")]

/-- C3: the claim asserts the single-lookup service itself rejects
over-length and bad-charset identifiers before storage access.  It does
not: an identifier of 101 characters passes the service's own check and
its stored record is fetched and returned; only the boundary middleware
rejects it. -/
theorem C3_counterexample :
    longId.length = 101
    ∧ getDeviceLastPosition testParser "gps:last:" "T0" longStore
        (some longId) .full
        = .ok (.full { deviceId := some "dev-1", userId := some "u-1",
                       retrievedAt := some "T0" }) longId
    ∧ validateDeviceIdMiddleware (some longId)
        = some (.deviceIdTooLong 101 100) := by
  refine ⟨by decide, rfl, by decide⟩

/-- C3 (amended): the core's own single-lookup validation rejects only a
missing or blank identifier (before any storage access — the outcome does
not depend on the store); the length (≤100) and character-set rules are
enforced solely by the boundary middleware. -/
theorem C3_core_validation_scope :
    (∀ (J : JsonParser) (pre now : String) (st : Store) (format : Fmt),
        getDeviceLastPosition J pre now st none format = .invalidDeviceId)
    ∧ (∀ (J : JsonParser) (pre now : String) (st : Store) (format : Fmt)
          (s : String), jsTrim s = "" →
        getDeviceLastPosition J pre now st (some s) format = .invalidDeviceId)
    ∧ (∀ s : String, jsTrim s ≠ "" → 100 < s.length →
        validateDeviceIdMiddleware (some s)
          = some (.deviceIdTooLong s.length 100))
    ∧ (∀ s : String, jsTrim s ≠ "" → s.length ≤ 100 → validPattern s = false →
        validateDeviceIdMiddleware (some s)
          = some .invalidDeviceIdCharacters) := by
  refine ⟨fun J pre now st format => rfl, ?_, ?_, ?_⟩
  · intro J pre now st format s h
    simp [getDeviceLastPosition, svcIdInvalid, h]
  · intro s h hl
    have hs : ¬(s = "") := by
      intro he; exact h (by rw [he]; rfl)
    simp [validateDeviceIdMiddleware, hs, h, hl]
  · intro s h hl hp
    have hs : ¬(s = "") := by
      intro he; exact h (by rw [he]; rfl)
    simp [validateDeviceIdMiddleware, hs, h, Nat.not_lt.mpr hl, hp]

/-- Witness for C3_core_validation_scope at concrete identifiers. -/
theorem C3_witness :
    getDeviceLastPosition testParser "gps:last:" "T0" [] (some "   ") .full
      = .invalidDeviceId
    ∧ validateDeviceIdMiddleware (some longId)
        = some (.deviceIdTooLong longId.length 100)
    ∧ validateDeviceIdMiddleware (some "dev!")
        = some .invalidDeviceIdCharacters := by
  refine ⟨C3_core_validation_scope.2.1 testParser "gps:last:" "T0" [] .full
            "   " (by decide),
          C3_core_validation_scope.2.2.1 longId (by decide) (by decide),
          C3_core_validation_scope.2.2.2 "dev!" (by decide) (by decide)
            (by decide)⟩

/-- Helper: a batch of entries that all pass the service id check reaches
the ceiling comparison with its full length and is rejected as TOO_MANY
when over 100, regardless of the store. -/
lemma multi_tooMany_of_all_valid (J : JsonParser) (pre now : String)
    (st : Store) (format : Fmt) (ids : List String)
    (hval : ∀ id ∈ ids, svcIdInvalid id = false) (hlen : 100 < ids.length) :
    getMultipleDevicesLastPositions J pre now st ids format
      = .tooMany ids.length 100 := by
  have hne : ids.isEmpty = false := by
    cases ids with
    | nil => simp at hlen
    | cons a l => rfl
  have h1 : ids.filter svcIdInvalid = [] :=
    List.filter_eq_nil_iff.mpr (fun a ha => by simp [hval a ha])
  have h2 : ids.filter (fun s => !svcIdInvalid s) = ids :=
    List.filter_eq_self.mpr (fun a ha => by simp [hval a ha])
  simp [getMultipleDevicesLastPositions, hne, h1, h2, hlen]

/-- C4: the claim asserts every batch of more than 100 ids is rejected
with the too-many error.  A 101-element batch containing one blank entry
is instead rejected as INVALID_DEVICE_IDS (the all-or-nothing entry check
runs before the ceiling check). -/
theorem C4_counterexample :
    ("" :: List.replicate 100 "a").length = 101
    ∧ getMultipleDevicesLastPositions testParser "gps:last:" "T0" []
        ("" :: List.replicate 100 "a") .full = .invalidEntries [""] := by
  exact ⟨by decide, rfl⟩

/-- C4 (amended): a batch of more than 100 syntactically acceptable ids is
rejected as TOO_MANY reporting the requested count and the 100 maximum;
and any over-ceiling batch, valid entries or not, is rejected identically
on every store — no storage access happens. -/
theorem C4_over_ceiling_rejected :
    (∀ (J : JsonParser) (pre now : String) (st : Store) (format : Fmt)
        (ids : List String),
        (∀ id ∈ ids, svcIdInvalid id = false) → 100 < ids.length →
        getMultipleDevicesLastPositions J pre now st ids format
          = .tooMany ids.length 100)
    ∧ (∀ (J : JsonParser) (pre now : String) (st st2 : Store) (format : Fmt)
        (ids : List String), 100 < ids.length →
        getMultipleDevicesLastPositions J pre now st ids format
          = getMultipleDevicesLastPositions J pre now st2 ids format) := by
  refine ⟨multi_tooMany_of_all_valid, ?_⟩
  intro J pre now st st2 format ids hlen
  by_cases hinv : ids.filter svcIdInvalid = []
  · have hval : ∀ id ∈ ids, svcIdInvalid id = false := by
      intro a ha
      have := List.filter_eq_nil_iff.mp hinv a ha
      simpa using this
    rw [multi_tooMany_of_all_valid J pre now st format ids hval hlen,
        multi_tooMany_of_all_valid J pre now st2 format ids hval hlen]
  · have hne : ids.isEmpty = false := by
      cases ids with
      | nil => simp at hlen
      | cons a l => rfl
    have hinv2 : (ids.filter svcIdInvalid).isEmpty = false := by
      cases hfe : ids.filter svcIdInvalid with
      | nil => exact absurd hfe hinv
      | cons a l => rfl
    simp [getMultipleDevicesLastPositions, hne, hinv2]

/-- Witness for C4_over_ceiling_rejected on a concrete 101-id batch. -/
theorem C4_witness :
    getMultipleDevicesLastPositions testParser "gps:last:" "T0" matchStore
      (List.replicate 101 "a") .full = .tooMany 101 100 := by
  have h := C4_over_ceiling_rejected.1 testParser "gps:last:" "T0" matchStore
    .full (List.replicate 101 "a") (by decide) (by decide)
  exact h

/-- Helper: the push-accumulate loop of the batch read is a filterMap. -/
lemma foldl_push_eq_filterMap (f : String → Option Position) (l : List String)
    (acc : List Position) :
    l.foldl (pushFound f) acc = acc ++ l.filterMap f := by
  induction l generalizing acc with
  | nil => simp
  | cons x xs ih =>
    cases hfx : f x with
    | some p => simp [List.foldl, pushFound, hfx, ih, List.filterMap_cons]
    | none => simp [List.foldl, pushFound, hfx, ih, List.filterMap_cons]

/-- Helper: the GPS batch read resolves each requested id independently,
in order, keeping the successful lookups. -/
lemma gpsGetMultiple_eq_filterMap (J : JsonParser) (pre now : String)
    (st : Store) (ids : List String) :
    gpsGetMultipleLastPositions J pre now st ids
      = ids.filterMap (lookupOpt J pre now st) := by
  have h := foldl_push_eq_filterMap (lookupOpt J pre now st) ids []
  rw [List.nil_append] at h
  exact h

/-- C8: the claim asserts at most one output record per requested id even
for requests repeating an id.  Requesting the same stored id twice returns
its record twice. -/
theorem C8_counterexample :
    gpsGetMultipleLastPositions testParser "gps:last:" "T0" matchStore
      ["dev-1", "dev-1"]
      = [{ deviceId := some "dev-1", userId := some "u-1",
           retrievedAt := some "T0" },
         { deviceId := some "dev-1", userId := some "u-1",
           retrievedAt := some "T0" }]
    ∧ (gpsGetMultipleLastPositions testParser "gps:last:" "T0" matchStore
        ["dev-1", "dev-1"]).countP
          (fun p => p.deviceId == some "dev-1") = 2 := by
  exact ⟨rfl, by decide⟩

/-- C8 (amended): the batch read contributes at most one record per
occurrence in the requested sequence — it is exactly the per-id lookup
filtered over the sequence — so its output never exceeds the number of
requested ids, and a duplicate-free request yields at most one record per
requested id; a duplicated id contributes one record per occurrence. -/
theorem C8_per_occurrence (J : JsonParser) (pre now : String) (st : Store)
    (ids : List String) :
    gpsGetMultipleLastPositions J pre now st ids
      = ids.filterMap (lookupOpt J pre now st)
    ∧ (gpsGetMultipleLastPositions J pre now st ids).length ≤ ids.length := by
  refine ⟨gpsGetMultiple_eq_filterMap J pre now st ids, ?_⟩
  rw [gpsGetMultiple_eq_filterMap]
  exact List.length_filterMap_le _ _

/-- Store fixture: a mobile record whose serialized payload carries a
different identifier than the key it is stored under. -/
def mobileMismatchStore : Store := [("mobile:last:u-1", .str "blobOther")]

/-- Store fixture: a mobile record whose serialized payload has no
identifier field at all. -/
def mobileNoIdStore : Store := [("mobile:last:u-1", .str "blobNoId")]

/-- Store fixture: a device record in the field-map encoding with no
stored deviceId field. -/
def hashStore : Store := [("gps:last:dev-2", .hash [("lat", "2.5")])]

/-- C1: the claim asserts `get(id)` always returns a record whose entityId
equals `id`, under every encoding, even when the payload mismatches it.
In the GPS namespace a string-encoded payload carrying a different
`deviceId` is returned verbatim; in the mobile namespace a payload
carrying a different `userId` is likewise kept. -/
theorem C1_counterexample :
    gpsGetLastPosition testParser "gps:last:" "T0" mismatchStore "dev-1"
      = .ok (some { deviceId := some "other-device",
                    userId := some "other-user", retrievedAt := some "T0" })
    ∧ (some "other-device" : Option String) ≠ some "dev-1"
    ∧ mobileGetLastPosition testParser "T0" mobileMismatchStore "u-1"
      = .ok (some { deviceId := some "other-device",
                    userId := some "other-user", retrievedAt := some "T0" })
    ∧ (some "other-user" : Option String) ≠ some "u-1" := by
  exact ⟨rfl, by decide, rfl, by decide⟩

/-- C1 (amended): the mobile store's `get(id)` rewrites the record's
entityId to `id` exactly when the decoded payload's identifier is absent
or empty (any encoding), so a returned mobile record's entityId is either
the requested id or a non-empty payload identifier; the GPS store's
`get(id)` returns the decoded payload unchanged apart from the
`retrievedAt` stamp, and only its field-map decoder falls back to `id`
when the stored deviceId field is absent or empty. -/
theorem C1_entity_id_rules :
    (∀ (J : JsonParser) (now : String) (st : Store) (userId : String)
        (p : Position),
        mobileGetDataByType J st (mobileKey userId) userId = .ok (some p) →
        jsTruthy p.userId = false →
        mobileGetLastPosition J now st userId
          = .ok (some { p with userId := some userId,
                               retrievedAt := some now }))
    ∧ (∀ (J : JsonParser) (now : String) (st : Store) (userId : String)
        (r : Position),
        mobileGetLastPosition J now st userId = .ok (some r) →
        r.userId = some userId ∨ jsTruthy r.userId = true)
    ∧ (∀ (J : JsonParser) (pre now : String) (st : Store) (deviceId : String)
        (p : Position),
        gpsGetDataByType J st (pre ++ deviceId) deviceId = .ok (some p) →
        gpsGetLastPosition J pre now st deviceId
          = .ok (some { p with retrievedAt := some now }))
    ∧ (∀ (J : JsonParser) (st : Store) (deviceId key : String)
        (fields : List (String × String)) (p : Position),
        storeGet st key = some (.hash fields) →
        jsTruthy (hget fields "deviceId") = false →
        gpsGetDataByType J st key deviceId = .ok (some p) →
        p.deviceId = some deviceId) := by
  refine ⟨?_, ?_, ?_, ?_⟩
  · intro J now st userId p hdec hfalsy
    have hkey : (storeGet st (mobileKey userId)).isNone = false := by
      cases hst : storeGet st (mobileKey userId) with
      | none => simp [mobileGetDataByType, hst] at hdec
      | some v => rfl
    simp [mobileGetLastPosition, hkey, hdec, jsOr, hfalsy]
  · intro J now st userId r hr
    rw [mobileGetLastPosition] at hr
    cases hst : storeGet st (mobileKey userId) with
    | none => simp [hst] at hr
    | some v =>
      simp only [hst, Option.isNone_some, Bool.false_eq_true, if_false] at hr
      cases hdec : mobileGetDataByType J st (mobileKey userId) userId with
      | error e => simp [hdec] at hr
      | ok po =>
        cases po with
        | none => simp [hdec] at hr
        | some p =>
          simp only [hdec, Except.ok.injEq, Option.some.injEq] at hr
          cases htr : jsTruthy p.userId with
          | true =>
            right
            rw [← hr]
            simp [jsOr, htr]
          | false =>
            left
            rw [← hr]
            simp [jsOr, htr]
  · intro J pre now st deviceId p hdec
    have hkey : (storeGet st (pre ++ deviceId)).isNone = false := by
      cases hst : storeGet st (pre ++ deviceId) with
      | none => simp [gpsGetDataByType, hst] at hdec
      | some v => rfl
    simp [gpsGetLastPosition, hkey, hdec]
  · intro J st deviceId key fields p hst hfalsy hdec
    rw [gpsGetDataByType, hst] at hdec
    by_cases hfe : fields.isEmpty
    · simp [hfe] at hdec
    · simp only [hfe, Bool.false_eq_true, if_false] at hdec
      cases hm : hmeta J fields with
      | error e => simp [hm, Except.map] at hdec
      | ok md =>
        simp only [hm, Except.map, Except.ok.injEq, Option.some.injEq] at hdec
        rw [← hdec]
        simp [jsOr, hfalsy]

/-- Witness for C1_entity_id_rules: each conjunct applied at a concrete
store and identifier. -/
theorem C1_witness :
    (mobileGetLastPosition testParser "T0" mobileNoIdStore "u-1"
      = .ok (some { userId := some "u-1", lat := some (parseFloat "1.0"),
                    retrievedAt := some "T0" }))
    ∧ ((some "u-1" : Option String) = some "u-1"
        ∨ jsTruthy (some "u-1") = true)
    ∧ (gpsGetLastPosition testParser "gps:last:" "T0" mismatchStore "dev-1"
      = .ok (some { deviceId := some "other-device",
                    userId := some "other-user", retrievedAt := some "T0" }))
    ∧ Position.deviceId
        { deviceId := some "dev-2", lat := some (parseFloat "2.5") }
        = some "dev-2" := by
  refine ⟨C1_entity_id_rules.1 testParser "T0" mobileNoIdStore "u-1"
            { lat := some (parseFloat "1.0") } rfl (by decide),
          ?_,
          C1_entity_id_rules.2.2.1 testParser "gps:last:" "T0" mismatchStore
            "dev-1"
            { deviceId := some "other-device", userId := some "other-user" }
            rfl,
          C1_entity_id_rules.2.2.2 testParser hashStore "dev-2"
            "gps:last:dev-2" [("lat", "2.5")]
            { deviceId := some "dev-2", lat := some (parseFloat "2.5") }
            rfl (by decide) rfl⟩
  exact C1_entity_id_rules.2.1 testParser "T0" mobileNoIdStore "u-1"
    { userId := some "u-1", lat := some (parseFloat "1.0"),
      retrievedAt := some "T0" } rfl

/-- Helper: splitting a list by whether a partial function hits it, the
hits and the misses add up to the whole. -/
lemma length_filterMap_add_none {α β : Type} (f : α → Option β)
    (l : List α) :
    (l.filterMap f).length
      + (l.filter (fun a => (f a).isNone)).length = l.length := by
  induction l with
  | nil => rfl
  | cons x xs ih =>
    cases hfx : f x with
    | some p =>
      simp [List.filterMap_cons, List.filter_cons, hfx]
      omega
    | none =>
      simp [List.filterMap_cons, List.filter_cons, hfx]
      omega

/-- Helper: when every record a lookup finds carries the id it was looked
up under, an id appears among the found records' identifiers exactly when
its own lookup succeeded. -/
lemma contains_found_iff (f : String → Option Position) (l : List String)
    (hmatch : ∀ id ∈ l,
      ((f id).all (fun p => p.deviceId == some id)) = true)
    (x : String) (hx : x ∈ l) :
    ((l.filterMap f).map Position.deviceId).contains (some x)
      = (f x).isSome := by
  cases hfx : f x with
  | some p =>
    have hpd : p.deviceId = some x := by
      have h := hmatch x hx
      rw [hfx] at h
      simpa using h
    have hmem : some x ∈ (l.filterMap f).map Position.deviceId :=
      List.mem_map.mpr ⟨p, List.mem_filterMap.mpr ⟨x, hx, hfx⟩, hpd⟩
    simpa [List.contains, List.elem_iff] using hmem
  | none =>
    simp only [Option.isSome_none]
    rw [Bool.eq_false_iff]
    intro hcon
    have hmem : some x ∈ (l.filterMap f).map Position.deviceId := by
      simpa [List.contains, List.elem_iff] using hcon
    obtain ⟨p, hpmem, hpd⟩ := List.mem_map.mp hmem
    obtain ⟨a, ha, hfa⟩ := List.mem_filterMap.mp hpmem
    have hda : p.deviceId = some a := by
      have h := hmatch a ha
      rw [hfa] at h
      simpa using h
    rw [hda] at hpd
    obtain rfl : a = x := by simpa using hpd
    rw [hfa] at hfx
    cases hfx

/-- C2: the claim asserts `found + notFound == requested` always holds.
For a single requested id whose stored payload carries a different
identifier, the lookup finds one record but the summary also counts the
requested id as not found: requested 1, found 1, notFound 1. -/
theorem C2_counterexample :
    getMultipleDevicesLastPositions testParser "gps:last:" "T0"
      mismatchStore ["dev-1"] .full
      = .ok [.full { deviceId := some "other-device",
                     userId := some "other-user", retrievedAt := some "T0" }]
          { requested := 1, found := 1, notFound := 1,
            notFoundDeviceIds := ["dev-1"] }
    ∧ 1 + 1 ≠ 1 := by
  exact ⟨rfl, by decide⟩

/-- C2 (amended): an admitted batch (non-empty, every entry passing the
service id check, at most 100 entries) always produces a success result
with `requested` equal to the batch size and `found` equal to the number
of returned records — no individual decode failure can abort it; and
`found + notFound = requested` holds provided every record found for a
requested id actually carries that id in its deviceId field (a mismatched
stored identifier breaks the equation, as the counterexample shows). -/
theorem C2_batch_summary (J : JsonParser) (pre now : String) (st : Store)
    (ids : List String) (format : Fmt)
    (hne : ids ≠ [])
    (hval : ∀ id ∈ ids, svcIdInvalid id = false)
    (hlen : ids.length ≤ 100) :
    (∃ data summary,
        getMultipleDevicesLastPositions J pre now st ids format
          = .ok data summary
        ∧ summary.requested = ids.length
        ∧ summary.found = data.length)
    ∧ ((∀ id ∈ ids, ((lookupOpt J pre now st (jsTrim id)).all
          (fun p => p.deviceId == some (jsTrim id))) = true) →
       ∀ data summary,
         getMultipleDevicesLastPositions J pre now st ids format
           = .ok data summary →
         summary.found + summary.notFound = summary.requested) := by
  have hEmpty : ids.isEmpty = false := by
    cases ids with
    | nil => exact absurd rfl hne
    | cons a l => rfl
  have h1 : ids.filter svcIdInvalid = [] :=
    List.filter_eq_nil_iff.mpr (fun a ha => by simp [hval a ha])
  have h2 : ids.filter (fun s => !svcIdInvalid s) = ids :=
    List.filter_eq_self.mpr (fun a ha => by simp [hval a ha])
  have hcl : (ids.map jsTrim).length = ids.length := List.length_map ids jsTrim
  have hnotBig : ¬((ids.map jsTrim).length > 100) := by
    rw [hcl]; omega
  have hmulti := gpsGetMultiple_eq_filterMap J pre now st (ids.map jsTrim)
  have hform : getMultipleDevicesLastPositions J pre now st ids format
      = .ok (((ids.map jsTrim).filterMap (lookupOpt J pre now st)).map
               (fun p => formatPositionData p format))
          { requested := (ids.map jsTrim).length
            found := (((ids.map jsTrim).filterMap
                        (lookupOpt J pre now st)).map
                       (fun p => formatPositionData p format)).length
            notFound := ((ids.map jsTrim).filter (fun id =>
                !((((ids.map jsTrim).filterMap
                      (lookupOpt J pre now st)).map
                     Position.deviceId).contains (some id)))).length
            notFoundDeviceIds := (ids.map jsTrim).filter (fun id =>
                !((((ids.map jsTrim).filterMap
                      (lookupOpt J pre now st)).map
                     Position.deviceId).contains (some id))) } := by
    simp only [getMultipleDevicesLastPositions, hEmpty, h1, h2, hmulti,
      hnotBig, List.isEmpty_nil, Bool.not_true, Bool.false_eq_true,
      if_false, if_true, gt_iff_lt, Bool.not_eq_true]
  constructor
  · exact ⟨_, _, hform, hcl, rfl⟩
  · intro hmatch data summary hres
    rw [hform] at hres
    have hsum : summary =
        { requested := (ids.map jsTrim).length
          found := (((ids.map jsTrim).filterMap
                      (lookupOpt J pre now st)).map
                     (fun p => formatPositionData p format)).length
          notFound := ((ids.map jsTrim).filter (fun id =>
              !((((ids.map jsTrim).filterMap
                    (lookupOpt J pre now st)).map
                   Position.deviceId).contains (some id)))).length
          notFoundDeviceIds := (ids.map jsTrim).filter (fun id =>
              !((((ids.map jsTrim).filterMap
                    (lookupOpt J pre now st)).map
                   Position.deviceId).contains (some id))) } := by
      cases hres
      rfl
    rw [hsum]
    have hmatch2 : ∀ x ∈ ids.map jsTrim,
        ((lookupOpt J pre now st x).all
          (fun p => p.deviceId == some x)) = true := by
      intro x hxm
      obtain ⟨id, hid, rfl⟩ := List.mem_map.mp hxm
      exact hmatch id hid
    have hcongr : (ids.map jsTrim).filter (fun id =>
          !((((ids.map jsTrim).filterMap
                (lookupOpt J pre now st)).map
               Position.deviceId).contains (some id)))
        = (ids.map jsTrim).filter (fun id =>
            (lookupOpt J pre now st id).isNone) := by
      apply List.filter_congr
      intro x hxm
      rw [contains_found_iff (lookupOpt J pre now st) (ids.map jsTrim)
        hmatch2 x hxm]
      exact Option.bnot_isSome (lookupOpt J pre now st x)
    rw [hcongr]
    have hfin := length_filterMap_add_none (lookupOpt J pre now st)
      (ids.map jsTrim)
    simpa using hfin

/-- Witness for C2_batch_summary on a concrete two-id batch where one id
exists with a faithful payload and one does not. -/
theorem C2_witness :
    1 + 1 = 2
    ∧ (∃ data summary,
        getMultipleDevicesLastPositions testParser "gps:last:" "T0"
          matchStore ["dev-1", "dev-404"] .full = .ok data summary
        ∧ summary.requested = 2
        ∧ summary.found = data.length) := by
  have h := C2_batch_summary testParser "gps:last:" "T0" matchStore
    ["dev-1", "dev-404"] .full (by decide) (by decide) (by decide)
  exact ⟨rfl, h.1⟩

end GpsApi
